import Mathlib

/-
Verification of the transit-gateway topology composer.

The program is an AWS CDK application.  Each CDK construct instantiation
declares one CloudFormation resource under a construct id that must be
unique within its stack; instantiating two constructs with the same id in
the same scope aborts the build.  We embed a stack as the ordered list of
(construct id, resource) pairs it declares, and each constructor class of
the source as a function that threads this list through the same sequence
of resource declarations as the source, failing on a duplicate construct
id exactly where CDK would.
-/

namespace TgwSpec

/-- An isolated subnet of a VPC: its id and the id of its route table
(in the source these come from aws_ec2.Vpc / ISubnet). -/
structure Subnet where
  subnetId : String
  routeTableId : String
deriving DecidableEq

/-- A VPC as the composer consumes it: id, CIDR block and the list of
isolated subnets (aws_ec2.Vpc restricted to the fields the routing code
reads: vpcId, vpcCidrBlock, isolatedSubnets). -/
structure Vpc where
  vpcId : String
  vpcCidrBlock : String
  isolatedSubnets : List Subnet
deriving DecidableEq

/-- The CloudFormation resources the composer declares, with the
properties the source sets on each. -/
inductive Resource where
  | transitGateway (amazonSideAsn : Nat)
      (defaultRouteTableAssociation : String)
      (defaultRouteTablePropagation : String)
  | customerGateway (bgpAsn : Nat) (ipAddress : String)
  | vpnConnection (transitGatewayId : String) (customerGatewayId : String)
  | transitGatewayRouteTable (transitGatewayId : String)
  | transitGatewayAttachment (transitGatewayId : String) (vpcId : String)
      (subnetIds : List String)
  | transitGatewayRouteTableAssociation
      (transitGatewayRouteTableId : String)
      (transitGatewayAttachmentId : String)
  | transitGatewayRouteTablePropagation
      (transitGatewayRouteTableId : String)
      (transitGatewayAttachmentId : String)
  | route (routeTableId : String) (destinationCidrBlock : String)
      (transitGatewayId : String) (dependsOn : List String)
deriving DecidableEq

/-- Errors a composition run can abort with: a duplicate CDK construct id
within one stack, or a missing required configuration value
(the spec's ConfigurationError). -/
inductive BuildError where
  | duplicateConstructId (id : String)
  | configurationError (message : String)
deriving DecidableEq

/-- A stack is the ordered list of declared resources keyed by construct id. -/
abbrev Stack := List (String × Resource)

/-- Declare one resource under a construct id, failing when the id is
already taken in this stack (CDK duplicate-construct-id error). -/
def addResource (st : Stack) (id : String) (r : Resource) :
    Except BuildError Stack :=
  if st.any (fun p => p.1 == id) then .error (.duplicateConstructId id)
  else .ok (st ++ [(id, r)])

/-- Extract the declared stack of a build result; a failed build declares
nothing (the spec treats a failed composition as having no active topology). -/
def stackOf (e : Except BuildError Stack) : Stack :=
  match e with
  | .ok st => st
  | .error _ => []

/-- Result of the Gateway stack: its resources and the refs of the three
resources it creates (modelled as their construct ids). -/
structure GatewayResult where
  resources : Stack
  transitGatewayRef : String
  customerGatewayRef : String
  vpnConnectionRef : String
deriving DecidableEq

/-- The Gateway stack (source class Gateway): creates the transit gateway
with default route-table association and propagation both "disable", then
the customer gateway from the on-prem IP (a required property: the source
reads props.onPremIpAddress! and CloudFormation rejects a customer gateway
without an ipAddress, the spec's ConfigurationError), then the VPN
connection referencing both. -/
def gateway (pfx : String) (amazonSideAsn : Nat)
    (onPremIpAddress : Option String) (customerSideAsn : Nat) :
    Except BuildError GatewayResult := do
  let tgwId := pfx ++ "-TGW"
  let st ← addResource [] tgwId
    (.transitGateway amazonSideAsn "disable" "disable")
  let ip ← match onPremIpAddress with
    | some ip => Except.ok ip
    | none => Except.error (.configurationError "onPremIpAddress is required")
  let cgwId := pfx ++ "-CGW"
  let st ← addResource st cgwId (.customerGateway customerSideAsn ip)
  let vpnId := pfx ++ "-VPN"
  let st ← addResource st vpnId (.vpnConnection tgwId cgwId)
  return ⟨st, tgwId, cgwId, vpnId⟩

/-- Extract the declared stack of a Gateway build; a failed build declares
nothing. -/
def gatewayStackOf (e : Except BuildError GatewayResult) : Stack :=
  match e with
  | .ok gw => gw.resources
  | .error _ => []

/-- The per-subnet route loop shared by the two loops at the end of
TgwRouteAttachment: for each subnet, declare a route in that subnet's
route table, under the single fixed construct id routeId, with the given
destination CIDR, the transit gateway as target, and an explicit
dependsOn on the resource named by dependsOnId.  Both source loops use a
fixed construct id, so a second iteration collides. -/
def addRoutesForSubnets (routeId : String) (destCidr : String)
    (tgwRef : String) (dependsOnId : String) :
    List Subnet → Stack → Except BuildError Stack
  | [], st => .ok st
  | s :: rest, st => do
      let st ← addResource st routeId
        (.route s.routeTableId destCidr tgwRef [dependsOnId])
      addRoutesForSubnets routeId destCidr tgwRef dependsOnId rest st

/-- Result of the TgwRouteAttachment stack: its resources plus the refs of
the cloud-domain route table and the two VPC attachments. -/
structure TgwRouteAttachmentResult where
  resources : Stack
  routeTableRef : String
  devAttachmentRef : String
  prodAttachmentRef : String
deriving DecidableEq

/-- The TgwRouteAttachment stack (source class TgwRouteAttachment):
declares the cloud-domain route table, the development and production VPC
attachments, their associations with and propagations into that table,
then one route per development subnet to the production CIDR (construct id
"RouteToProdVpcDepartment", dependsOn the development attachment) and one
route per production subnet to the development CIDR (construct id
"RouteToDevVpcDepartment", dependsOn the development attachment — the
source's line route.addDependsOn(tgwDevVpcAttachment) in the production
loop, reproduced faithfully). -/
def tgwRouteAttachment (pfx : String) (tgwRef : String)
    (developmentVpc : Vpc) (productionVpc : Vpc) :
    Except BuildError TgwRouteAttachmentResult := do
  let rtId := pfx ++ "-RouteTable"
  let st ← addResource [] rtId (.transitGatewayRouteTable tgwRef)
  let devAttId := pfx ++ "dev-vpc-tgw-attachment"
  let st ← addResource st devAttId
    (.transitGatewayAttachment tgwRef developmentVpc.vpcId
      (developmentVpc.isolatedSubnets.map Subnet.subnetId))
  let prodAttId := pfx ++ "prod-vpc-tgw-attachment"
  let st ← addResource st prodAttId
    (.transitGatewayAttachment tgwRef productionVpc.vpcId
      (productionVpc.isolatedSubnets.map Subnet.subnetId))
  let st ← addResource st "dev-vpc-attachment-tgw-route-table-association"
    (.transitGatewayRouteTableAssociation rtId devAttId)
  let st ← addResource st "prod-vpc-attachment-tgw-route-table-association"
    (.transitGatewayRouteTableAssociation rtId prodAttId)
  let st ← addResource st "dev-vpc-attachment-tgw-route-table-propogation"
    (.transitGatewayRouteTablePropagation rtId devAttId)
  let st ← addResource st "prod-vpc-attachment-tgw-route-table-propogation"
    (.transitGatewayRouteTablePropagation rtId prodAttId)
  let st ← addRoutesForSubnets "RouteToProdVpcDepartment"
    productionVpc.vpcCidrBlock tgwRef devAttId
    developmentVpc.isolatedSubnets st
  let st ← addRoutesForSubnets "RouteToDevVpcDepartment"
    developmentVpc.vpcCidrBlock tgwRef devAttId
    productionVpc.isolatedSubnets st
  return ⟨st, rtId, devAttId, prodAttId⟩

/-- The TgwVpnRouting stack (source class TgwVpnRouting): declares the VPN
route table, the association of the VPN attachment with it, the
propagation of the VPN attachment into it and into the cloud-domain route
table, and the propagations of the development and production attachments
into it. -/
def tgwVpnRouting (tgwRef : String) (vpcRouteTableId : String)
    (devAttachmentId : String) (prodAttachmentId : String)
    (vpnAttachmentId : String) : Except BuildError Stack := do
  let vpnRtbRef := "VPN"
  let st ← addResource [] vpnRtbRef (.transitGatewayRouteTable tgwRef)
  let st ← addResource st "VPNAssociation"
    (.transitGatewayRouteTableAssociation vpnRtbRef vpnAttachmentId)
  let st ← addResource st "VPNPropogation"
    (.transitGatewayRouteTablePropagation vpnRtbRef vpnAttachmentId)
  let st ← addResource st "DevelopmentVPNPropagation"
    (.transitGatewayRouteTablePropagation vpcRouteTableId vpnAttachmentId)
  let st ← addResource st "VPNDevelopmentPropogation"
    (.transitGatewayRouteTablePropagation vpnRtbRef devAttachmentId)
  let st ← addResource st "VPNProductionPropogation"
    (.transitGatewayRouteTablePropagation vpnRtbRef prodAttachmentId)
  return st

/-- Construct id of the i-th route declared by SubnetRouting: the source
concatenates props.prefix!, a fresh uuidv4() drawn at that loop iteration,
and "-tgw-route".  The uuid draws of one run are modelled as a function u
from the loop index to the drawn string. -/
def mkSubnetRouteId (pfx : String) (u : Nat → String) (i : Nat) : String :=
  pfx ++ u i ++ "-tgw-route"

/-- The loop body of SubnetRouting: for each isolated subnet, declare a
0.0.0.0/0 route in the subnet's route table targeting the transit gateway,
with an explicit dependsOn on the transit gateway (the source's
route.addDependsOn(props.transitGateway!)). -/
def subnetRoutingGo (pfx : String) (tgwRef : String) (u : Nat → String) :
    Nat → List Subnet → Stack → Except BuildError Stack
  | _, [], st => .ok st
  | i, s :: rest, st => do
      let st ← addResource st (mkSubnetRouteId pfx u i)
        (.route s.routeTableId "0.0.0.0/0" tgwRef [tgwRef])
      subnetRoutingGo pfx tgwRef u (i + 1) rest st

/-- The SubnetRouting construct (source class SubnetRouting), run with the
uuid draws u of this particular run. -/
def subnetRouting (pfx : String) (vpc : Vpc) (tgwRef : String)
    (u : Nat → String) : Except BuildError Stack :=
  subnetRoutingGo pfx tgwRef u 0 vpc.isolatedSubnets []

/-- The entries the SubnetRouting loop appends for the given subnets when
no construct id collides, starting at loop index i. -/
def subnetRouteEntries (pfx : String) (tgwRef : String) (u : Nat → String) :
    Nat → List Subnet → Stack
  | _, [] => []
  | i, s :: rest =>
      (mkSubnetRouteId pfx u i,
        .route s.routeTableId "0.0.0.0/0" tgwRef [tgwRef]) ::
        subnetRouteEntries pfx tgwRef u (i + 1) rest

/-- The resolved configuration the demo app reads (per-region CIDRs and
ASNs from params.json plus the global OnPremPublicIp entry; the IP is
optional in the map, so its absence must be representable). -/
structure Config where
  developmentCidr : String
  productionCidr : String
  amazonSideAsn : Nat
  customerSideAsn : Nat
  onPremPublicIp : Option String
deriving DecidableEq

/-- A VpcWithEc2 VPC as the composer sees it (source class VpcWithEc2):
maxAzs 1 with a single PRIVATE_ISOLATED subnet configuration yields
exactly one isolated subnet; the subnet and route-table ids are the
backend-assigned handles, modelled deterministically from the prefix. -/
def vpcWithEc2 (pfx : String) (cidr : String) : Vpc :=
  ⟨pfx ++ "-VPC", cidr,
    [⟨pfx ++ "-VPC-isolated-subnet-1", pfx ++ "-VPC-isolated-rtb-1"⟩]⟩

/-- The demo app (src/bin/tgw-on-prem-demo.ts): builds the base network
(development and production VPCs), then the Gateway stack with pfx "TGW-",
then the TgwRouteAttachment stack with pfx "Gateway-" wired to the
gateway's transit gateway; any failing step aborts the whole composition. -/
def composeApp (cfg : Config) : Except BuildError Stack := do
  let developmentVpc := vpcWithEc2 "Development" cfg.developmentCidr
  let productionVpc := vpcWithEc2 "Production" cfg.productionCidr
  let gw ← gateway "TGW-" cfg.amazonSideAsn cfg.onPremPublicIp
    cfg.customerSideAsn
  let ra ← tgwRouteAttachment "Gateway-" gw.transitGatewayRef
    developmentVpc productionVpc
  return gw.resources ++ ra.resources

/-- The full hub topology of the composer as the spec describes it: the
demo app's stacks followed by the TgwVpnRouting stack wired to the
cloud-domain route table and the three attachments (the VPN attachment id
is the backend-assigned attachment of the VPN connection, an input). -/
def grandTopology (cfg : Config) (vpnAttachmentId : String) :
    Except BuildError Stack := do
  let developmentVpc := vpcWithEc2 "Development" cfg.developmentCidr
  let productionVpc := vpcWithEc2 "Production" cfg.productionCidr
  let gw ← gateway "TGW-" cfg.amazonSideAsn cfg.onPremPublicIp
    cfg.customerSideAsn
  let ra ← tgwRouteAttachment "Gateway-" gw.transitGatewayRef
    developmentVpc productionVpc
  let vpn ← tgwVpnRouting gw.transitGatewayRef ra.routeTableRef
    ra.devAttachmentRef ra.prodAttachmentRef vpnAttachmentId
  return gw.resources ++ ra.resources ++ vpn

/-- The (route table, attachment) pairs of all declared associations. -/
def associationPairs (st : Stack) : List (String × String) :=
  st.filterMap fun p =>
    match p.2 with
    | .transitGatewayRouteTableAssociation rt att => some (rt, att)
    | _ => none

/-- The (route table, attachment) pairs of all declared propagations. -/
def propagationPairs (st : Stack) : List (String × String) :=
  st.filterMap fun p =>
    match p.2 with
    | .transitGatewayRouteTablePropagation rt att => some (rt, att)
    | _ => none

/-- Whether a declared resource is a transit-gateway attachment. -/
def isAttachmentEntry (p : String × Resource) : Bool :=
  match p.2 with
  | .transitGatewayAttachment _ _ _ => true
  | _ => false

/-- Whether a declared resource is a subnet route to the given destination
CIDR, installed in the given route table and targeting the given transit
gateway. -/
def isRouteTo (rtId : String) (destCidr : String) (tgwRef : String)
    (p : String × Resource) : Bool :=
  match p.2 with
  | .route rt dest tgw _ => rt == rtId && dest == destCidr && tgw == tgwRef
  | _ => false

/-- Whether a declared resource is a default (0.0.0.0/0) route in the
given route table targeting the given transit gateway. -/
def isDefaultRouteToHub (tgwRef : String) (rtId : String)
    (p : String × Resource) : Bool :=
  isRouteTo rtId "0.0.0.0/0" tgwRef p

/-- The demo configuration of the spec's scenario: development
10.0.0.0/24, production 10.0.1.0/24, hub ASN 64512, customer ASN 65000,
on-prem public IP 203.0.113.10. -/
def demoConfig : Config :=
  ⟨"10.0.0.0/24", "10.0.1.0/24", 64512, 65000, some "203.0.113.10"⟩

/-- The demo configuration with the on-prem public IP omitted from the
configuration map. -/
def noIpConfig : Config :=
  ⟨"10.0.0.0/24", "10.0.1.0/24", 64512, 65000, none⟩

/-- Setup states of the VPN link: which of the Gateway stack's resources
was most recently created. -/
inductive VpnSetupState where
  | unprovisioned
  | customerGatewayCreated
  | transitGatewayCreated
  | vpnConnectionEstablished
deriving DecidableEq

/-- The state reached by declaring one resource of the Gateway stack. -/
def stepState (p : String × Resource) : Option VpnSetupState :=
  match p.2 with
  | .transitGateway _ _ _ => some .transitGatewayCreated
  | .customerGateway _ _ => some .customerGatewayCreated
  | .vpnConnection _ _ => some .vpnConnectionEstablished
  | _ => none

/-- The sequence of VPN-setup states a declared stack passes through,
starting from Unprovisioned. -/
def vpnSetupTrace (st : Stack) : List VpnSetupState :=
  VpnSetupState.unprovisioned :: st.filterMap stepState

/-- The state order the specification asserts for the VPN link setup:
Unprovisioned, CustomerGatewayCreated, TransitGatewayCreated,
VPNConnectionEstablished. -/
def claimedVpnSetupTrace : List VpnSetupState :=
  [.unprovisioned, .customerGatewayCreated, .transitGatewayCreated,
   .vpnConnectionEstablished]

/-- Whether a composition step succeeded. -/
def buildOk {α : Type} (e : Except BuildError α) : Bool :=
  match e with
  | .ok _ => true
  | .error _ => false

/-- Extract the result of a TgwRouteAttachment build; a failed build
yields an empty result. -/
def raResultOf (e : Except BuildError TgwRouteAttachmentResult) :
    TgwRouteAttachmentResult :=
  match e with
  | .ok r => r
  | .error _ => ⟨[], "", "", ""⟩

/-- Whether the declared transit gateway named tgwId enables default
route-table association (the AWS platform associates every attachment
with the transit gateway's default route table exactly when this flag is
enabled). -/
def tgwDefaultAssociationEnabled (st : Stack) (tgwId : String) : Bool :=
  st.any fun q =>
    q.1 == tgwId &&
      match q.2 with
      | .transitGateway _ a _ => a == "enable"
      | _ => false

/-- Whether the declared transit gateway named tgwId enables default
route-table propagation. -/
def tgwDefaultPropagationEnabled (st : Stack) (tgwId : String) : Bool :=
  st.any fun q =>
    q.1 == tgwId &&
      match q.2 with
      | .transitGateway _ _ pr => pr == "enable"
      | _ => false

/-- The implicit associations of the declared topology: the AWS platform
associates each attachment with its transit gateway's default route table
exactly when the transit gateway enables default route-table association. -/
def implicitAssociationPairs (st : Stack) : List (String × String) :=
  st.filterMap fun p =>
    match p.2 with
    | .transitGatewayAttachment tgwRef _ _ =>
        if tgwDefaultAssociationEnabled st tgwRef then
          some (tgwRef ++ "-default-rtb", p.1)
        else none
    | _ => none

/-- The implicit propagations of the declared topology: the AWS platform
propagates each attachment into its transit gateway's default route table
exactly when the transit gateway enables default route-table propagation. -/
def implicitPropagationPairs (st : Stack) : List (String × String) :=
  st.filterMap fun p =>
    match p.2 with
    | .transitGatewayAttachment tgwRef _ _ =>
        if tgwDefaultPropagationEnabled st tgwRef then
          some (tgwRef ++ "-default-rtb", p.1)
        else none
    | _ => none

/-- All associations in force for a declared topology: the explicitly
declared ones plus the platform's implicit default-table ones. -/
def effectiveAssociationPairs (st : Stack) : List (String × String) :=
  associationPairs st ++ implicitAssociationPairs st

/-- All propagations in force for a declared topology: the explicitly
declared ones plus the platform's implicit default-table ones. -/
def effectivePropagationPairs (st : Stack) : List (String × String) :=
  propagationPairs st ++ implicitPropagationPairs st

/-- The propagations the claim asserts the hub topology contains and no
others, at the demo configuration with VPN attachment id vpn-att-1: the
development and production attachments into the cloud-domain table, the
VPN attachment into the cloud-domain table, and the development and
production attachments into the VPN-domain table. -/
def claimedPropagationPairsC3 : List (String × String) :=
  [("Gateway--RouteTable", "Gateway-dev-vpc-tgw-attachment"),
   ("Gateway--RouteTable", "Gateway-prod-vpc-tgw-attachment"),
   ("Gateway--RouteTable", "vpn-att-1"),
   ("VPN", "Gateway-dev-vpc-tgw-attachment"),
   ("VPN", "Gateway-prod-vpc-tgw-attachment")]

/-- An on-prem-facing segment with one isolated subnet, used as a concrete
input. -/
def exOnPremVpc : Vpc :=
  ⟨"OnPrem-VPC", "172.16.0.0/16", [⟨"onprem-subnet-1", "onprem-rtb-1"⟩]⟩

/-- An on-prem-facing segment with two isolated subnets and distinct
subnet route tables, used as a concrete input. -/
def exTwoSubnetVpc : Vpc :=
  ⟨"OnPrem-VPC", "172.16.0.0/16",
   [⟨"onprem-subnet-1", "onprem-rtb-1"⟩, ⟨"onprem-subnet-2", "onprem-rtb-2"⟩]⟩

/-- The uuid draws of one SubnetRouting run. -/
def uuidDrawA : Nat → String := fun _ => "11111111-aaaa"

/-- The uuid draws of a second SubnetRouting run on the same
configuration. -/
def uuidDrawB : Nat → String := fun _ => "22222222-bbbb"

/-- Uuid draws that are distinct across the two loop iterations of a
two-subnet run. -/
def uuidDrawW : Nat → String := fun n => if n = 0 then "11111111" else "22222222"

/-- The development VPC of the demo deployment. -/
def demoDevVpc : Vpc := vpcWithEc2 "Development" "10.0.0.0/24"

/-- The production VPC of the demo deployment. -/
def demoProdVpc : Vpc := vpcWithEc2 "Production" "10.0.1.0/24"

/-- The TgwRouteAttachment build result of the demo deployment. -/
def demoRouteAttachmentResult : TgwRouteAttachmentResult :=
  raResultOf (tgwRouteAttachment "Gateway-" "TGW--TGW" demoDevVpc demoProdVpc)

/-- When the construct ids generated for the loop indices in range are
pairwise distinct and the starting stack holds only ids generated at
earlier indices, the SubnetRouting loop succeeds and appends exactly one
route entry per subnet. -/
lemma subnetRoutingGo_eq_ok (pfx tgwRef : String) (u : Nat → String) :
    ∀ (subnets : List Subnet) (i : Nat) (st : Stack),
      (∀ k, k < i + subnets.length → ∀ l, l < i + subnets.length → k ≠ l →
        mkSubnetRouteId pfx u k ≠ mkSubnetRouteId pfx u l) →
      (∀ p ∈ st, ∃ k, k < i ∧ p.1 = mkSubnetRouteId pfx u k) →
      subnetRoutingGo pfx tgwRef u i subnets st =
        .ok (st ++ subnetRouteEntries pfx tgwRef u i subnets) := by
  intro subnets
  induction subnets with
  | nil => intro i st _ _; simp [subnetRoutingGo, subnetRouteEntries]
  | cons s rest ih =>
    intro i st hfresh hst
    have hany : st.any (fun p => p.1 == mkSubnetRouteId pfx u i) = false := by
      rw [List.any_eq_false]
      intro p hp
      obtain ⟨k, hk, hpk⟩ := hst p hp
      simp only [hpk, beq_iff_eq]
      exact hfresh k (by simp only [List.length_cons]; omega) i
        (by simp only [List.length_cons]; omega) (by omega)
    have hrec := ih (i + 1)
      (st ++ [(mkSubnetRouteId pfx u i,
        .route s.routeTableId "0.0.0.0/0" tgwRef [tgwRef])])
      (by intro k hk l hl hkl
          exact hfresh k (by simp only [List.length_cons] at hk ⊢; omega) l
            (by simp only [List.length_cons] at hl ⊢; omega) hkl)
      (by intro p hp
          rcases List.mem_append.mp hp with h | h
          · obtain ⟨k, hk, hpk⟩ := hst p h
            exact ⟨k, by omega, hpk⟩
          · simp at h
            exact ⟨i, by omega, by simp [h]⟩)
    simp only [subnetRoutingGo, addResource, hany, Bool.false_eq_true,
      if_false, Bind.bind, Except.bind]
    rw [hrec]
    simp [subnetRouteEntries]

/-- The declared payloads of the SubnetRouting loop do not depend on the
uuid draws: one 0.0.0.0/0 route per subnet targeting the hub. -/
lemma subnetRouteEntries_map_snd (pfx tgwRef : String) (u : Nat → String) :
    ∀ (subnets : List Subnet) (i : Nat),
      (subnetRouteEntries pfx tgwRef u i subnets).map Prod.snd =
        subnets.map (fun s =>
          Resource.route s.routeTableId "0.0.0.0/0" tgwRef [tgwRef]) := by
  intro subnets
  induction subnets with
  | nil => intro i; simp [subnetRouteEntries]
  | cons s rest ih => intro i; simp [subnetRouteEntries, ih]

/-- Counting the default routes installed in a given route table over the
SubnetRouting entries counts the subnets owning that route table. -/
lemma subnetRouteEntries_countP (pfx tgwRef : String) (u : Nat → String)
    (rtId : String) :
    ∀ (subnets : List Subnet) (i : Nat),
      (subnetRouteEntries pfx tgwRef u i subnets).countP
          (isDefaultRouteToHub tgwRef rtId) =
        subnets.countP (fun s => s.routeTableId == rtId) := by
  intro subnets
  induction subnets with
  | nil => intro i; simp [subnetRouteEntries]
  | cons s rest ih =>
    intro i
    simp [subnetRouteEntries, List.countP_cons, ih,
      isDefaultRouteToHub, isRouteTo]

/-- A subnet list whose route tables are pairwise distinct holds exactly
one subnet with any given member's route table. -/
lemma countP_rt_eq_one (subnets : List Subnet) (s : Subnet)
    (hmem : s ∈ subnets)
    (hrt : (subnets.map Subnet.routeTableId).Nodup) :
    subnets.countP (fun x => x.routeTableId == s.routeTableId) = 1 := by
  have h1 : subnets.countP (fun x => x.routeTableId == s.routeTableId) =
      (subnets.map Subnet.routeTableId).countP
        (fun y => y == s.routeTableId) := by
    rw [List.countP_map]
    rfl
  have h2 : (subnets.map Subnet.routeTableId).countP
      (fun y => y == s.routeTableId) =
      (subnets.map Subnet.routeTableId).count s.routeTableId := rfl
  rw [h1, h2]
  exact List.count_eq_one_of_mem hrt (List.mem_map_of_mem _ hmem)

/-- Claim C1: the source does not give every subnet route a dependency on
the attachment of its own segment.  Evaluated at the demo deployment: the
production-subnet route to the development CIDR carries an explicit
dependsOn on the development attachment (not the production attachment),
and the SubnetRouting default route carries an explicit dependsOn on the
transit gateway itself (the Hub), not on any attachment. -/
theorem C1_route_dependency_eval :
    (("RouteToDevVpcDepartment",
        Resource.route "Production-VPC-isolated-rtb-1" "10.0.0.0/24"
          "TGW--TGW" ["Gateway-dev-vpc-tgw-attachment"]) ∈
      stackOf (grandTopology demoConfig "vpn-att-1")) ∧
    "Gateway-dev-vpc-tgw-attachment" ≠ "Gateway-prod-vpc-tgw-attachment" ∧
    stackOf (subnetRouting "OnPrem" exOnPremVpc "TGW--TGW" uuidDrawA) =
      [("OnPrem11111111-aaaa-tgw-route",
        Resource.route "onprem-rtb-1" "0.0.0.0/0" "TGW--TGW" ["TGW--TGW"])] := by
  decide

/-- Claim C2: when the composition succeeds and the two segments have
distinct CIDR blocks, every development subnet receives exactly one route
whose destination is the production CIDR and whose target is the hub, and
every production subnet exactly one route to the development CIDR
targeting the hub. -/
theorem C2_cross_segment_routes (tgwRef : String)
    (developmentVpc productionVpc : Vpc)
    (hcidr : developmentVpc.vpcCidrBlock ≠ productionVpc.vpcCidrBlock)
    (result : TgwRouteAttachmentResult)
    (h : tgwRouteAttachment "Gateway-" tgwRef developmentVpc productionVpc =
      .ok result) :
    (∀ s ∈ developmentVpc.isolatedSubnets,
      result.resources.countP
        (isRouteTo s.routeTableId productionVpc.vpcCidrBlock tgwRef) = 1) ∧
    (∀ s ∈ productionVpc.isolatedSubnets,
      result.resources.countP
        (isRouteTo s.routeTableId developmentVpc.vpcCidrBlock tgwRef) = 1) := by
  obtain ⟨dvid, dcidr, dsubs⟩ := developmentVpc
  obtain ⟨pvid, pcidr, psubs⟩ := productionVpc
  simp only at hcidr ⊢
  rcases dsubs with _ | ⟨s1, _ | ⟨s2, drest⟩⟩
  · rcases psubs with _ | ⟨p1, _ | ⟨p2, prest⟩⟩
    · obtain rfl : result = ⟨_, _, _, _⟩ := (Except.ok.inj h).symm
      constructor
      · intro s hs; simp at hs
      · intro s hs; simp at hs
    · obtain rfl : result = ⟨_, _, _, _⟩ := (Except.ok.inj h).symm
      constructor
      · intro s hs; simp at hs
      · intro s hs
        simp only [List.mem_singleton] at hs
        subst hs
        simp [List.countP_cons, isRouteTo, beq_self_eq_true]
    · exact Except.noConfusion h
  · rcases psubs with _ | ⟨p1, _ | ⟨p2, prest⟩⟩
    · obtain rfl : result = ⟨_, _, _, _⟩ := (Except.ok.inj h).symm
      constructor
      · intro s hs
        simp only [List.mem_singleton] at hs
        subst hs
        simp [List.countP_cons, isRouteTo, beq_self_eq_true]
      · intro s hs; simp at hs
    · obtain rfl : result = ⟨_, _, _, _⟩ := (Except.ok.inj h).symm
      have hd : (dcidr == pcidr) = false := beq_eq_false_iff_ne.mpr hcidr
      have hp : (pcidr == dcidr) = false :=
        beq_eq_false_iff_ne.mpr (Ne.symm hcidr)
      constructor
      · intro s hs
        simp only [List.mem_singleton] at hs
        subst hs
        simp [List.countP_cons, isRouteTo, beq_self_eq_true, hd]
      · intro s hs
        simp only [List.mem_singleton] at hs
        subst hs
        simp [List.countP_cons, isRouteTo, beq_self_eq_true, hp]
    · exact Except.noConfusion h
  · exact Except.noConfusion h

/-- Claim C2 witness: the theorem applied to the demo deployment. -/
theorem C2_witness :
    demoDevVpc.vpcCidrBlock ≠ demoProdVpc.vpcCidrBlock ∧
    tgwRouteAttachment "Gateway-" "TGW--TGW" demoDevVpc demoProdVpc =
      .ok demoRouteAttachmentResult ∧
    ((∀ s ∈ demoDevVpc.isolatedSubnets,
      demoRouteAttachmentResult.resources.countP
        (isRouteTo s.routeTableId demoProdVpc.vpcCidrBlock "TGW--TGW") = 1) ∧
     (∀ s ∈ demoProdVpc.isolatedSubnets,
      demoRouteAttachmentResult.resources.countP
        (isRouteTo s.routeTableId demoDevVpc.vpcCidrBlock "TGW--TGW") = 1)) :=
  ⟨by decide, rfl,
    C2_cross_segment_routes "TGW--TGW" demoDevVpc demoProdVpc (by decide)
      demoRouteAttachmentResult rfl⟩

/-- Claim C3 counterexample: the emitted hub topology contains the
propagation of the VPN attachment into the VPN domain's own route table,
a propagation the claim's exhaustive list (claimedPropagationPairsC3)
does not include, so the topology does not contain exactly the claimed
propagations and no others. -/
theorem C3_vpn_self_propagation_counterexample :
    ("VPN", "vpn-att-1") ∈
      propagationPairs (stackOf (grandTopology demoConfig "vpn-att-1")) ∧
    ("VPN", "vpn-att-1") ∉ claimedPropagationPairsC3 := by
  decide

/-- Claim C3 amended: the emitted hub topology contains exactly six
propagations: the development and production attachments into the
cloud-domain table, the VPN attachment into its own VPN-domain table and
into the cloud-domain table, and the development and production
attachments into the VPN-domain table. -/
theorem C3_amended_six_propagations (dcidr pcidr ip : String)
    (asn casn : Nat) (vpnAttId : String) :
    propagationPairs
        (stackOf (grandTopology ⟨dcidr, pcidr, asn, casn, some ip⟩ vpnAttId)) =
      [("Gateway--RouteTable", "Gateway-dev-vpc-tgw-attachment"),
       ("Gateway--RouteTable", "Gateway-prod-vpc-tgw-attachment"),
       ("VPN", vpnAttId),
       ("Gateway--RouteTable", vpnAttId),
       ("VPN", "Gateway-dev-vpc-tgw-attachment"),
       ("VPN", "Gateway-prod-vpc-tgw-attachment")] := rfl

/-- Claim C4: in the composed topology the associations are exactly the
development and production attachments with the cloud-domain table and
the VPN attachment with the VPN-domain table; each of the three
attachments is associated with exactly one routing domain, the VPN
attachment is never associated with the cloud-domain table, and it is
propagated into the cloud-domain table. -/
theorem C4_unique_association (dcidr pcidr ip : String) (asn casn : Nat)
    (vpnAttId : String)
    (h1 : vpnAttId ≠ "Gateway-dev-vpc-tgw-attachment")
    (h2 : vpnAttId ≠ "Gateway-prod-vpc-tgw-attachment") :
    associationPairs
        (stackOf (grandTopology ⟨dcidr, pcidr, asn, casn, some ip⟩ vpnAttId)) =
      [("Gateway--RouteTable", "Gateway-dev-vpc-tgw-attachment"),
       ("Gateway--RouteTable", "Gateway-prod-vpc-tgw-attachment"),
       ("VPN", vpnAttId)] ∧
    (associationPairs
        (stackOf (grandTopology ⟨dcidr, pcidr, asn, casn, some ip⟩ vpnAttId))).countP
        (fun pr => pr.2 == "Gateway-dev-vpc-tgw-attachment") = 1 ∧
    (associationPairs
        (stackOf (grandTopology ⟨dcidr, pcidr, asn, casn, some ip⟩ vpnAttId))).countP
        (fun pr => pr.2 == "Gateway-prod-vpc-tgw-attachment") = 1 ∧
    (associationPairs
        (stackOf (grandTopology ⟨dcidr, pcidr, asn, casn, some ip⟩ vpnAttId))).countP
        (fun pr => pr.2 == vpnAttId) = 1 ∧
    ("Gateway--RouteTable", vpnAttId) ∉
      associationPairs
        (stackOf (grandTopology ⟨dcidr, pcidr, asn, casn, some ip⟩ vpnAttId)) ∧
    ("Gateway--RouteTable", vpnAttId) ∈
      propagationPairs
        (stackOf (grandTopology ⟨dcidr, pcidr, asn, casn, some ip⟩ vpnAttId)) := by
  have ea : associationPairs
      (stackOf (grandTopology ⟨dcidr, pcidr, asn, casn, some ip⟩ vpnAttId)) =
      [("Gateway--RouteTable", "Gateway-dev-vpc-tgw-attachment"),
       ("Gateway--RouteTable", "Gateway-prod-vpc-tgw-attachment"),
       ("VPN", vpnAttId)] := rfl
  have ep : propagationPairs
      (stackOf (grandTopology ⟨dcidr, pcidr, asn, casn, some ip⟩ vpnAttId)) =
      [("Gateway--RouteTable", "Gateway-dev-vpc-tgw-attachment"),
       ("Gateway--RouteTable", "Gateway-prod-vpc-tgw-attachment"),
       ("VPN", vpnAttId),
       ("Gateway--RouteTable", vpnAttId),
       ("VPN", "Gateway-dev-vpc-tgw-attachment"),
       ("VPN", "Gateway-prod-vpc-tgw-attachment")] := rfl
  refine ⟨ea, ?_, ?_, ?_, ?_, ?_⟩
  · rw [ea]; simp [List.countP_cons, beq_iff_eq, h1, h2]
  · rw [ea]; simp [List.countP_cons, beq_iff_eq, h1, h2]
  · rw [ea]; simp [List.countP_cons, beq_iff_eq, Ne.symm h1, Ne.symm h2]
  · rw [ea]; simp [List.mem_cons, h1, h2]
  · rw [ep]; simp [List.mem_cons]

/-- Claim C4 witness: the theorem applied to the demo deployment with
VPN attachment id vpn-att-1. -/
theorem C4_witness :
    ("vpn-att-1" : String) ≠ "Gateway-dev-vpc-tgw-attachment" ∧
    ("vpn-att-1" : String) ≠ "Gateway-prod-vpc-tgw-attachment" ∧
    (associationPairs
        (stackOf (grandTopology
          ⟨"10.0.0.0/24", "10.0.1.0/24", 64512, 65000, some "203.0.113.10"⟩
          "vpn-att-1")) =
      [("Gateway--RouteTable", "Gateway-dev-vpc-tgw-attachment"),
       ("Gateway--RouteTable", "Gateway-prod-vpc-tgw-attachment"),
       ("VPN", "vpn-att-1")] ∧
     (associationPairs
        (stackOf (grandTopology
          ⟨"10.0.0.0/24", "10.0.1.0/24", 64512, 65000, some "203.0.113.10"⟩
          "vpn-att-1"))).countP
        (fun pr => pr.2 == "Gateway-dev-vpc-tgw-attachment") = 1 ∧
     (associationPairs
        (stackOf (grandTopology
          ⟨"10.0.0.0/24", "10.0.1.0/24", 64512, 65000, some "203.0.113.10"⟩
          "vpn-att-1"))).countP
        (fun pr => pr.2 == "Gateway-prod-vpc-tgw-attachment") = 1 ∧
     (associationPairs
        (stackOf (grandTopology
          ⟨"10.0.0.0/24", "10.0.1.0/24", 64512, 65000, some "203.0.113.10"⟩
          "vpn-att-1"))).countP
        (fun pr => pr.2 == "vpn-att-1") = 1 ∧
     ("Gateway--RouteTable", "vpn-att-1") ∉
      associationPairs
        (stackOf (grandTopology
          ⟨"10.0.0.0/24", "10.0.1.0/24", 64512, 65000, some "203.0.113.10"⟩
          "vpn-att-1")) ∧
     ("Gateway--RouteTable", "vpn-att-1") ∈
      propagationPairs
        (stackOf (grandTopology
          ⟨"10.0.0.0/24", "10.0.1.0/24", 64512, 65000, some "203.0.113.10"⟩
          "vpn-att-1"))) :=
  ⟨by decide, by decide,
    C4_unique_association "10.0.0.0/24" "10.0.1.0/24" "203.0.113.10"
      64512 65000 "vpn-att-1" (by decide) (by decide)⟩

/-- Claim C5: when the uuid draws of the run produce pairwise-distinct
construct ids and the subnets' route tables are pairwise distinct, the
SubnetRouting construct succeeds and every isolated subnet of the
on-prem-facing segment receives exactly one 0.0.0.0/0 route targeting the
hub. -/
theorem C5_onprem_default_route (pfx tgwRef : String) (u : Nat → String)
    (vpc : Vpc)
    (hfresh : ∀ k, k < vpc.isolatedSubnets.length → ∀ l,
      l < vpc.isolatedSubnets.length → k ≠ l →
      mkSubnetRouteId pfx u k ≠ mkSubnetRouteId pfx u l)
    (hrt : (vpc.isolatedSubnets.map Subnet.routeTableId).Nodup) :
    ∃ st, subnetRouting pfx vpc tgwRef u = .ok st ∧
      ∀ s ∈ vpc.isolatedSubnets,
        st.countP (isDefaultRouteToHub tgwRef s.routeTableId) = 1 := by
  refine ⟨subnetRouteEntries pfx tgwRef u 0 vpc.isolatedSubnets, ?_, ?_⟩
  · have h := subnetRoutingGo_eq_ok pfx tgwRef u vpc.isolatedSubnets 0 []
      (by simpa using hfresh) (by simp)
    simpa [subnetRouting] using h
  · intro s hs
    rw [subnetRouteEntries_countP]
    exact countP_rt_eq_one _ s hs hrt

/-- Claim C5 witness: the theorem applied to an on-prem segment with two
subnets and distinct uuid draws. -/
theorem C5_witness :
    (∀ k, k < exTwoSubnetVpc.isolatedSubnets.length → ∀ l,
      l < exTwoSubnetVpc.isolatedSubnets.length → k ≠ l →
      mkSubnetRouteId "OnPrem" uuidDrawW k ≠
        mkSubnetRouteId "OnPrem" uuidDrawW l) ∧
    (exTwoSubnetVpc.isolatedSubnets.map Subnet.routeTableId).Nodup ∧
    (∃ st, subnetRouting "OnPrem" exTwoSubnetVpc "TGW--TGW" uuidDrawW =
        .ok st ∧
      ∀ s ∈ exTwoSubnetVpc.isolatedSubnets,
        st.countP (isDefaultRouteToHub "TGW--TGW" s.routeTableId) = 1) :=
  ⟨by decide, by decide,
    C5_onprem_default_route "OnPrem" "TGW--TGW" uuidDrawW exTwoSubnetVpc
      (by decide) (by decide)⟩

/-- Claim C6 counterexample: two runs of the composition's subnet-route
installer on the same unchanged configuration but different uuid draws
declare different topologies — the route keys differ — so the declared
topology is not a function of the configuration alone. -/
theorem C6_uuid_keys_counterexample :
    stackOf (subnetRouting "OnPrem" exOnPremVpc "TGW--TGW" uuidDrawA) ≠
      stackOf (subnetRouting "OnPrem" exOnPremVpc "TGW--TGW" uuidDrawB) := by
  decide

/-- Claim C6 amended: two runs of the subnet-route installer on the same
unchanged configuration declare the same route payloads in the same
order — same route table, destination, target and dependency per subnet,
no duplicates — though the construct keys embed the per-run uuid draws
and may differ. -/
theorem C6_amended_payload_determinism (pfx tgwRef : String) (vpc : Vpc)
    (u1 u2 : Nat → String)
    (h1 : ∀ k, k < vpc.isolatedSubnets.length → ∀ l,
      l < vpc.isolatedSubnets.length → k ≠ l →
      mkSubnetRouteId pfx u1 k ≠ mkSubnetRouteId pfx u1 l)
    (h2 : ∀ k, k < vpc.isolatedSubnets.length → ∀ l,
      l < vpc.isolatedSubnets.length → k ≠ l →
      mkSubnetRouteId pfx u2 k ≠ mkSubnetRouteId pfx u2 l) :
    Except.map (List.map Prod.snd) (subnetRouting pfx vpc tgwRef u1) =
      Except.map (List.map Prod.snd) (subnetRouting pfx vpc tgwRef u2) := by
  have e1 := subnetRoutingGo_eq_ok pfx tgwRef u1 vpc.isolatedSubnets 0 []
    (by simpa using h1) (by simp)
  have e2 := subnetRoutingGo_eq_ok pfx tgwRef u2 vpc.isolatedSubnets 0 []
    (by simpa using h2) (by simp)
  rw [subnetRouting, e1, subnetRouting, e2]
  simp [Except.map, subnetRouteEntries_map_snd]

/-- Claim C6 amended witness: the theorem applied to the example on-prem
segment and the two uuid draws of the counterexample. -/
theorem C6_amended_witness :
    (∀ k, k < exOnPremVpc.isolatedSubnets.length → ∀ l,
      l < exOnPremVpc.isolatedSubnets.length → k ≠ l →
      mkSubnetRouteId "OnPrem" uuidDrawA k ≠
        mkSubnetRouteId "OnPrem" uuidDrawA l) ∧
    (∀ k, k < exOnPremVpc.isolatedSubnets.length → ∀ l,
      l < exOnPremVpc.isolatedSubnets.length → k ≠ l →
      mkSubnetRouteId "OnPrem" uuidDrawB k ≠
        mkSubnetRouteId "OnPrem" uuidDrawB l) ∧
    Except.map (List.map Prod.snd)
        (subnetRouting "OnPrem" exOnPremVpc "TGW--TGW" uuidDrawA) =
      Except.map (List.map Prod.snd)
        (subnetRouting "OnPrem" exOnPremVpc "TGW--TGW" uuidDrawB) :=
  ⟨by decide, by decide,
    C6_amended_payload_determinism "OnPrem" "TGW--TGW" exOnPremVpc
      uuidDrawA uuidDrawB (by decide) (by decide)⟩

/-- Claim C7 counterexample: the Gateway stack's setup trace at the demo
configuration creates the transit gateway before the customer gateway,
not the claimed order CustomerGatewayCreated before
TransitGatewayCreated. -/
theorem C7_creation_order_counterexample :
    vpnSetupTrace (gatewayStackOf
        (gateway "TGW-" 64512 (some "203.0.113.10") 65000)) ≠
      claimedVpnSetupTrace ∧
    vpnSetupTrace (gatewayStackOf
        (gateway "TGW-" 64512 (some "203.0.113.10") 65000)) =
      [.unprovisioned, .transitGatewayCreated, .customerGatewayCreated,
       .vpnConnectionEstablished] := by
  decide

/-- Claim C7 amended: the VPN link setup proceeds strictly sequentially
through Unprovisioned, TransitGatewayCreated, CustomerGatewayCreated,
VPNConnectionEstablished, and the VPN connection is created last,
referencing both the transit gateway and the customer gateway. -/
theorem C7_amended_trace (asn casn : Nat) (ip : String) :
    vpnSetupTrace (gatewayStackOf (gateway "TGW-" asn (some ip) casn)) =
      [.unprovisioned, .transitGatewayCreated, .customerGatewayCreated,
       .vpnConnectionEstablished] ∧
    gateway "TGW-" asn (some ip) casn =
      .ok ⟨[("TGW--TGW", .transitGateway asn "disable" "disable"),
            ("TGW--CGW", .customerGateway casn ip),
            ("TGW--VPN", .vpnConnection "TGW--TGW" "TGW--CGW")],
           "TGW--TGW", "TGW--CGW", "TGW--VPN"⟩ :=
  ⟨rfl, rfl⟩

/-- Claim C8: when the on-prem public IP is omitted from the
configuration, the composition fails with a ConfigurationError and the
declared topology holds zero attachments. -/
theorem C8_missing_ip_aborts (cfg : Config)
    (h : cfg.onPremPublicIp = none) :
    composeApp cfg =
      .error (.configurationError "onPremIpAddress is required") ∧
    (stackOf (composeApp cfg)).countP isAttachmentEntry = 0 := by
  obtain ⟨d, p, a, c, ip⟩ := cfg
  simp only at h
  subst h
  exact ⟨rfl, rfl⟩

/-- Claim C8 witness: the theorem applied to the demo configuration with
the on-prem IP omitted. -/
theorem C8_missing_ip_aborts_witness :
    noIpConfig.onPremPublicIp = none ∧
    (composeApp noIpConfig =
        .error (.configurationError "onPremIpAddress is required") ∧
      (stackOf (composeApp noIpConfig)).countP isAttachmentEntry = 0) :=
  ⟨rfl, C8_missing_ip_aborts noIpConfig rfl⟩

/-- Claim C9: for segments with at least one subnet each, the
route-attachment composition succeeds exactly when the development and
production segments have exactly one subnet each, and with two or more
subnets in either segment it fails on the duplicate fixed route construct
id instead of installing one route per subnet. -/
theorem C9_fixed_ids_single_subnet (tgwRef : String)
    (developmentVpc productionVpc : Vpc)
    (hdev : developmentVpc.isolatedSubnets ≠ [])
    (hprod : productionVpc.isolatedSubnets ≠ []) :
    (buildOk (tgwRouteAttachment "Gateway-" tgwRef developmentVpc
        productionVpc) = true ↔
      developmentVpc.isolatedSubnets.length = 1 ∧
        productionVpc.isolatedSubnets.length = 1) ∧
    (2 ≤ developmentVpc.isolatedSubnets.length ∨
        2 ≤ productionVpc.isolatedSubnets.length →
      ∃ dupId,
        tgwRouteAttachment "Gateway-" tgwRef developmentVpc productionVpc =
          .error (.duplicateConstructId dupId) ∧
        (dupId = "RouteToProdVpcDepartment" ∨
          dupId = "RouteToDevVpcDepartment")) := by
  obtain ⟨dvid, dcidr, dsubs⟩ := developmentVpc
  obtain ⟨pvid, pcidr, psubs⟩ := productionVpc
  simp only at hdev hprod ⊢
  rcases dsubs with _ | ⟨s1, _ | ⟨s2, drest⟩⟩
  · exact absurd rfl hdev
  · rcases psubs with _ | ⟨p1, _ | ⟨p2, prest⟩⟩
    · exact absurd rfl hprod
    · constructor
      · exact ⟨fun _ => ⟨rfl, rfl⟩, fun _ => rfl⟩
      · intro hc
        simp only [List.length_singleton] at hc
        omega
    · constructor
      · have e : tgwRouteAttachment "Gateway-" tgwRef ⟨dvid, dcidr, [s1]⟩
            ⟨pvid, pcidr, p1 :: p2 :: prest⟩ =
            .error (.duplicateConstructId "RouteToDevVpcDepartment") := rfl
        rw [e]
        simp [buildOk]
      · intro _
        exact ⟨"RouteToDevVpcDepartment", rfl, Or.inr rfl⟩
  · constructor
    · have e : tgwRouteAttachment "Gateway-" tgwRef
          ⟨dvid, dcidr, s1 :: s2 :: drest⟩ ⟨pvid, pcidr, psubs⟩ =
          .error (.duplicateConstructId "RouteToProdVpcDepartment") := rfl
      rw [e]
      simp [buildOk]
    · intro _
      exact ⟨"RouteToProdVpcDepartment", rfl, Or.inl rfl⟩

/-- Claim C9 witness: the theorem applied to the demo deployment, whose
segments each have exactly one subnet. -/
theorem C9_witness :
    demoDevVpc.isolatedSubnets ≠ [] ∧
    demoProdVpc.isolatedSubnets ≠ [] ∧
    ((buildOk (tgwRouteAttachment "Gateway-" "TGW--TGW" demoDevVpc
        demoProdVpc) = true ↔
      demoDevVpc.isolatedSubnets.length = 1 ∧
        demoProdVpc.isolatedSubnets.length = 1) ∧
     (2 ≤ demoDevVpc.isolatedSubnets.length ∨
        2 ≤ demoProdVpc.isolatedSubnets.length →
      ∃ dupId,
        tgwRouteAttachment "Gateway-" "TGW--TGW" demoDevVpc demoProdVpc =
          .error (.duplicateConstructId dupId) ∧
        (dupId = "RouteToProdVpcDepartment" ∨
          dupId = "RouteToDevVpcDepartment"))) :=
  ⟨by decide, by decide,
    C9_fixed_ids_single_subnet "TGW--TGW" demoDevVpc demoProdVpc
      (by decide) (by decide)⟩

/-- Claim C10: the hub is created with default route-table association
and default route-table propagation both disabled, so the declared
topology induces no implicit association or propagation and the
associations and propagations in force are exactly the explicitly
declared ones, for every composition run. -/
theorem C10_defaults_disabled (dcidr pcidr ip : String) (asn casn : Nat) :
    (("TGW--TGW", Resource.transitGateway asn "disable" "disable") ∈
      stackOf (composeApp ⟨dcidr, pcidr, asn, casn, some ip⟩)) ∧
    implicitAssociationPairs
        (stackOf (composeApp ⟨dcidr, pcidr, asn, casn, some ip⟩)) = [] ∧
    implicitPropagationPairs
        (stackOf (composeApp ⟨dcidr, pcidr, asn, casn, some ip⟩)) = [] ∧
    effectiveAssociationPairs
        (stackOf (composeApp ⟨dcidr, pcidr, asn, casn, some ip⟩)) =
      associationPairs (stackOf (composeApp ⟨dcidr, pcidr, asn, casn, some ip⟩)) ∧
    effectivePropagationPairs
        (stackOf (composeApp ⟨dcidr, pcidr, asn, casn, some ip⟩)) =
      propagationPairs (stackOf (composeApp ⟨dcidr, pcidr, asn, casn, some ip⟩)) :=
  ⟨List.Mem.head _, rfl, rfl, rfl, rfl⟩

end TgwSpec
